import Mathlib

/-
Verification of the pulse-sequence compiler in wieserlabsdds/pulse.py.

The compiler turns an ordered list of pulses (frequency, amplitude, phase,
duration) into an ordered stream of device operations (stage via single_tone,
wait_time / wait_trigger, push_update, run).  We embed the Python classes as
Lean structures and the methods as pure functions that return the emitted
operation stream; printed warnings become `Diag` values and Python exceptions
become `Except.error`.  Numeric values are modelled as rationals; the numpy
constant `pi` is passed as an explicit parameter `piV` where the source uses it.
-/

set_option autoImplicit false

/-- Pulse value from pulse.py: frequency (Hz), amplitude (0..1), phase
(degrees) and duration `t` (seconds), stored unchanged by `Pulse.__init__`. -/
structure Pulse where
  freq : ℚ
  amp : ℚ
  phase : ℚ
  t : ℚ
deriving DecidableEq

/-- XPulse: `XPulse.__init__` calls `Pulse.__init__` with phase 0. -/
def XPulse (freq amp t : ℚ) : Pulse :=
  Pulse.mk freq amp 0 t

/-- YPulse: `YPulse.__init__` calls `Pulse.__init__` with phase 90. -/
def YPulse (freq amp t : ℚ) : Pulse :=
  Pulse.mk freq amp 90 t

/-- Modelled from the spec: trigger identifiers are uninterpreted tokens from
the device enumeration `TriggerEvent` in the wieserlabsdds client module,
which is not part of the compiler sources; only the default event named in
`generate`'s signature, `BNC_IN_A_RISING`, is needed here. -/
inductive TriggerEvent where
  | BNC_IN_A_RISING
deriving DecidableEq

/-- Modelled from the spec: the device-port calls that pulse.py makes on the
client object (`single_tone`, `push_update`, `wait_trigger`, `wait_time`,
`run`).  The client implementation is external; the compiler's observable
behaviour is the ordered list of these calls with the arguments pulse.py
passes (note `wait_time` is called without slot/channel in pulse.py). -/
inductive Op where
  | single_tone (slot channel : ℤ) (freq amp phase : ℚ) (suffix : Option String)
  | push_update (slot channel : ℤ)
  | wait_trigger (slot channel : ℤ) (trigger : List TriggerEvent) (update_before_wait : Bool)
  | wait_time (t : ℚ) (update_before_wait : Bool)
  | run (slot : ℤ)
deriving DecidableEq

/-- Diagnostics printed by `generate` (the two WARNING print statements). -/
inductive Diag where
  | recompileWarning
  | emptyWarning
deriving DecidableEq

/-- Python exceptions that the embedded methods can raise. -/
inductive PyError where
  | attributeError
deriving DecidableEq

/-- Operation classifiers used to count emitted operations. -/
def isSingleTone : Op → Bool
  | Op.single_tone _ _ _ _ _ _ => true
  | _ => false

def isPushUpdate : Op → Bool
  | Op.push_update _ _ => true
  | _ => false

def isWaitTime : Op → Bool
  | Op.wait_time _ _ => true
  | _ => false

def isWaitTrigger : Op → Bool
  | Op.wait_trigger _ _ _ _ => true
  | _ => false

def isRunOp : Op → Bool
  | Op.run _ => true
  | _ => false

/-- Python list indexing `l[j]`, including the negative-index convention:
`l[-k]` is the k-th element from the end.  `generate` uses `pulses[i-1]`
(which is `pulses[-1]`, the last element, when `i = 0`) and `pulses[-1]`. -/
def pyGet (l : List Pulse) (j : ℤ) : Pulse :=
  if j < 0 then l.getD (l.length - (-j).toNat) (Pulse.mk 0 0 0 0)
  else l.getD j.toNat (Pulse.mk 0 0 0 0)

/-- One iteration of the steady-state loop in `generate`
(`for i in range(len(self.pulses))`, lines 176-180): stage `pulses[i]` with
suffix "c", wait `pulses[i-1].t` without updating, then push the update. -/
def loopIter (slot channel : ℤ) (pulses : List Pulse) (i : ℕ) : List Op :=
  [ Op.single_tone slot channel (pyGet pulses i).freq (pyGet pulses i).amp
      (pyGet pulses i).phase (some "c"),
    Op.wait_time (pyGet pulses ((i : ℤ) - 1)).t false,
    Op.push_update slot channel ]

/-- The device operations `generate` emits for a non-empty pulse list
(pulse.py lines 163-186): prime the first pulse (immediate update when
`trigger_option = 0`, otherwise wait for the trigger first), then the
steady-state loop over `i in range(len(pulses))`, then the shutdown stage
with amplitude 0 for the last pulse, a wait of `pulses[-1].t`, and a final
update. -/
def generateOps (slot channel : ℤ) (pulses : List Pulse) (trigger_option : ℕ)
    (trigger : List TriggerEvent) : List Op :=
  let p0 := pyGet pulses 0
  (Op.single_tone slot channel p0.freq p0.amp p0.phase
      (if trigger_option = 0 then none else some "c") ::
    (if trigger_option = 0 then
      [Op.push_update slot channel]
    else
      [Op.wait_trigger slot channel trigger false, Op.push_update slot channel]))
  ++ ((List.range pulses.length).map (loopIter slot channel pulses)).flatten
  ++ (let pl := pyGet pulses ((pulses.length : ℤ) - 1)
      [ Op.single_tone slot channel pl.freq 0 pl.phase (some "c"),
        Op.wait_time (pyGet pulses (-1)).t false,
        Op.push_update slot channel ])

/-- State of a `PulseSequence` object: the attributes its methods read or
write.  The `channel` field is an `Option` because `__init__` never creates a
`channel` attribute (line 119 assigns `self.slot` twice); reading a missing
attribute in `generate` is an `AttributeError`. -/
structure PulseSequence where
  slot : ℤ
  channel : Option ℤ
  default_freq : ℚ
  default_amp : ℚ
  pulses : List Pulse
  generated : Bool
deriving DecidableEq

/-- `PulseSequence.__init__(dds, slot, channel, default_freq, default_amp)`:
the source executes `self.slot = slot` and then `self.slot = channel`, so the
stored slot is the channel argument and no channel attribute is created. -/
def PulseSequence.init (slot channel : ℤ) (default_freq default_amp : ℚ) :
    PulseSequence :=
  { slot := channel
    channel := none
    default_freq := default_freq
    default_amp := default_amp
    pulses := []
    generated := false }

/-- `PulseSequence.add_pulse(t, freq=None, amp=None, phase=0)`: missing
frequency/amplitude fall back to the sequence defaults; appends the pulse. -/
def PulseSequence.add_pulse (s : PulseSequence) (t : ℚ) (freq amp : Option ℚ)
    (phase : ℚ) : PulseSequence :=
  { s with pulses := s.pulses ++ [Pulse.mk (freq.getD s.default_freq) (amp.getD s.default_amp) phase t] }

/-- `PulseSequence.generate(trigger_option, trigger)`: warn when already
generated, return with no device operations when the pulse list is empty,
otherwise emit the operation stream of `generateOps` and set the generated
flag.  The first device call reads `self.channel`, which `__init__` never
assigned, so it raises `AttributeError` when the attribute is absent. -/
def PulseSequence.generate (s : PulseSequence) (trigger_option : ℕ)
    (trigger : List TriggerEvent) :
    Except PyError (PulseSequence × List Diag × List Op) :=
  if s.pulses.isEmpty then
    Except.ok (s,
      (if s.generated then [Diag.recompileWarning] else []) ++ [Diag.emptyWarning], [])
  else
    match s.channel with
    | none => Except.error PyError.attributeError
    | some ch =>
        Except.ok ({ s with generated := true },
          (if s.generated then [Diag.recompileWarning] else []),
          generateOps s.slot ch s.pulses trigger_option trigger)

/-- `PulseSequence.run()`: `if not self.generated: self.generate()` with
`generate`'s default arguments, then `self.dds.run(self.slot)`. -/
def PulseSequence.run (s : PulseSequence) :
    Except PyError (PulseSequence × List Diag × List Op) :=
  if s.generated then
    Except.ok (s, [], [Op.run s.slot])
  else
    match s.generate 1 [TriggerEvent.BNC_IN_A_RISING] with
    | Except.error e => Except.error e
    | Except.ok (s', d, ops) => Except.ok (s', d, ops ++ [Op.run s'.slot])

/-- State of a `QubitPulseSequence`: the inherited `PulseSequence` state plus
the fixed `freq`, `amp` and `pi_pulse_time` set by its `__init__`. -/
structure QubitPulseSequence where
  seq : PulseSequence
  freq : ℚ
  amp : ℚ
  pi_pulse_time : ℚ
deriving DecidableEq

/-- `QubitPulseSequence.__init__(dds, slot, channel, pi_pulse_time, freq, amp)`. -/
def QubitPulseSequence.init (slot channel : ℤ) (pi_pulse_time freq amp : ℚ) :
    QubitPulseSequence :=
  { seq := PulseSequence.init slot channel freq amp
    freq := freq
    amp := amp
    pi_pulse_time := pi_pulse_time }

/-- `QubitPulseSequence._angle_to_time(theta) = theta/pi * self.pi_pulse_time`;
`piV` stands for the numpy constant `pi`. -/
def QubitPulseSequence.angle_to_time (piV : ℚ) (q : QubitPulseSequence)
    (theta : ℚ) : ℚ :=
  theta / piV * q.pi_pulse_time

/-- `QubitPulseSequence.add_pulse(phi, theta)`: appends
`Pulse(self.freq, self.amp, phi/pi*180, self._angle_to_time(theta))`. -/
def QubitPulseSequence.add_pulse (piV : ℚ) (q : QubitPulseSequence)
    (phi theta : ℚ) : QubitPulseSequence :=
  { q with seq := { q.seq with pulses := q.seq.pulses ++
      [Pulse.mk q.freq q.amp (phi / piV * 180) (q.angle_to_time piV theta)] } }

/-- `QubitPulseSequence.add_x_pulse(theta)`: appends
`XPulse(self.freq, self.amp, t=self._angle_to_time(theta))`. -/
def QubitPulseSequence.add_x_pulse (piV : ℚ) (q : QubitPulseSequence)
    (theta : ℚ) : QubitPulseSequence :=
  { q with seq := { q.seq with pulses := q.seq.pulses ++
      [XPulse q.freq q.amp (q.angle_to_time piV theta)] } }

/-- `QubitPulseSequence.add_y_pulse(theta)`: appends
`YPulse(self.freq, self.amp, t=self._angle_to_time(theta))`. -/
def QubitPulseSequence.add_y_pulse (piV : ℚ) (q : QubitPulseSequence)
    (theta : ℚ) : QubitPulseSequence :=
  { q with seq := { q.seq with pulses := q.seq.pulses ++
      [YPulse q.freq q.amp (q.angle_to_time piV theta)] } }

/-! ### Concrete example states used in evaluations and witnesses -/

/-- Two pulses with distinct durations (1 s and 2 s), as in the spec's §8
example shape. -/
def exPulses : List Pulse := [Pulse.mk 5 1 0 1, Pulse.mk 6 (1/2) 90 2]

/-- A sequence state with the two example pulses, a present channel
attribute, and the generated flag still false. -/
def exSeq2 : PulseSequence :=
  { slot := 0
    channel := some 1
    default_freq := 1
    default_amp := 1
    pulses := exPulses
    generated := false }

/-- The same state after a completed compilation (generated flag true). -/
def exSeqGen : PulseSequence := { exSeq2 with generated := true }

/-! ### Helper lemmas -/

/-- How `generate` changes the generated flag on success: it becomes true
exactly when the pulse list is non-empty, and is otherwise unchanged. -/
theorem generate_generated_eq (s : PulseSequence) (trigger_option : ℕ)
    (trigger : List TriggerEvent) (s' : PulseSequence) (d : List Diag)
    (ops : List Op)
    (h : PulseSequence.generate s trigger_option trigger = Except.ok (s', d, ops)) :
    s'.generated = (s.generated || !s.pulses.isEmpty) := by
  unfold PulseSequence.generate at h
  by_cases hemp : s.pulses.isEmpty
  · rw [if_pos hemp] at h
    simp only [Except.ok.injEq, Prod.mk.injEq] at h
    obtain ⟨h1, -, -⟩ := h
    subst h1
    simp [hemp]
  · rw [if_neg hemp] at h
    cases hch : s.channel with
    | none => rw [hch] at h; simp at h
    | some ch =>
        rw [hch] at h
        simp only [Except.ok.injEq, Prod.mk.injEq] at h
        obtain ⟨h1, -, -⟩ := h
        subst h1
        simp only [Bool.not_eq_true] at hemp
        simp [hemp]

/-! ### Claim theorems -/

/-- The 11 operations `generate` emits for `exSeq2` under trigger_option 0. -/
def exOpsImm : List Op :=
  [ Op.single_tone 0 1 5 1 0 none,
    Op.push_update 0 1,
    Op.single_tone 0 1 5 1 0 (some "c"),
    Op.wait_time 2 false,
    Op.push_update 0 1,
    Op.single_tone 0 1 6 (1/2) 90 (some "c"),
    Op.wait_time 1 false,
    Op.push_update 0 1,
    Op.single_tone 0 1 6 0 90 (some "c"),
    Op.wait_time 2 false,
    Op.push_update 0 1 ]

/-- C1: evaluation at the two-pulse example (n = 2) under the Immediate
policy (trigger_option 0).  The code emits 4 stage, 4 commit and 3 wait
operations instead of the claimed n+1 = 3, n+1 = 3 and n = 2: the
steady-state loop runs over all n indices, so its first iteration re-stages
pulse 0 and waits `pulses[-1].t = 2`, the LAST pulse's duration. -/
theorem C1_failing_eval :
    PulseSequence.generate exSeq2 0 [TriggerEvent.BNC_IN_A_RISING]
      = Except.ok ({ exSeq2 with generated := true }, [], exOpsImm)
  ∧ exOpsImm.countP isSingleTone = 4
  ∧ exOpsImm.countP isPushUpdate = 4
  ∧ exOpsImm.countP isWaitTime = 3 :=
  ⟨rfl, rfl, rfl, rfl⟩

/-- The 12 operations `generate` emits for `exSeq2` under trigger_option 2. -/
def exOpsTrig2 : List Op :=
  [ Op.single_tone 0 1 5 1 0 (some "c"),
    Op.wait_trigger 0 1 [TriggerEvent.BNC_IN_A_RISING] false,
    Op.push_update 0 1,
    Op.single_tone 0 1 5 1 0 (some "c"),
    Op.wait_time 2 false,
    Op.push_update 0 1,
    Op.single_tone 0 1 6 (1/2) 90 (some "c"),
    Op.wait_time 1 false,
    Op.push_update 0 1,
    Op.single_tone 0 1 6 0 90 (some "c"),
    Op.wait_time 2 false,
    Op.push_update 0 1 ]

/-- C2: evaluation at the two-pulse example under the PerPulseTrigger policy
(trigger_option 2).  The steady-state waits are still the duration-based
`wait_time` operations (three of them, using the pulses' duration fields);
the only `wait_trigger` in the stream is the initial one, so option 2
behaves like option 1 instead of replacing every wait with a trigger wait. -/
theorem C2_failing_eval :
    PulseSequence.generate exSeq2 2 [TriggerEvent.BNC_IN_A_RISING]
      = Except.ok ({ exSeq2 with generated := true }, [], exOpsTrig2)
  ∧ exOpsTrig2.countP isWaitTrigger = 1
  ∧ exOpsTrig2.countP isWaitTime = 3 :=
  ⟨rfl, rfl, rfl⟩

/-- C3: a sequence constructed with slot 1 and channel 2 stores 2 in its
slot field (the source assigns `self.slot` twice and never assigns
`self.channel`), and compiling it with one pulse raises AttributeError when
the first device call reads the missing channel attribute, so the
construction-time identifiers are not passed through to the operations. -/
theorem C3_failing_eval :
    (PulseSequence.init 1 2 1 1).slot = 2
  ∧ (PulseSequence.init 1 2 1 1).channel = none
  ∧ PulseSequence.generate
      (PulseSequence.add_pulse (PulseSequence.init 1 2 1 1) 1 none none 0) 0
      [TriggerEvent.BNC_IN_A_RISING]
      = Except.error PyError.attributeError :=
  ⟨rfl, rfl, rfl⟩

/-- C4: `add_x_pulse θ` appends the same pulse as `add_pulse 0 θ` (phase 0,
duration θ/π·pi_pulse_time), `add_y_pulse θ` appends the same pulse as
`add_pulse (π/2) θ` (phase 90, same duration formula), and `add_x_pulse 0`
appends a pulse of duration 0; `piV` stands for the constant π. -/
theorem C4_rotation_mapping (piV : ℚ) (q : QubitPulseSequence) (theta : ℚ)
    (hpi : piV ≠ 0) :
    QubitPulseSequence.add_x_pulse piV q theta
      = QubitPulseSequence.add_pulse piV q 0 theta
  ∧ (QubitPulseSequence.add_x_pulse piV q theta).seq.pulses
      = q.seq.pulses ++ [Pulse.mk q.freq q.amp 0 (theta / piV * q.pi_pulse_time)]
  ∧ QubitPulseSequence.add_y_pulse piV q theta
      = QubitPulseSequence.add_pulse piV q (piV / 2) theta
  ∧ (QubitPulseSequence.add_y_pulse piV q theta).seq.pulses
      = q.seq.pulses ++ [Pulse.mk q.freq q.amp 90 (theta / piV * q.pi_pulse_time)]
  ∧ (QubitPulseSequence.add_x_pulse piV q 0).seq.pulses
      = q.seq.pulses ++ [Pulse.mk q.freq q.amp 0 0] := by
  have h90 : piV / 2 / piV * 180 = (90 : ℚ) := by
    field_simp
    ring
  refine ⟨?_, ?_, ?_, ?_, ?_⟩ <;>
    simp [QubitPulseSequence.add_x_pulse, QubitPulseSequence.add_y_pulse,
      QubitPulseSequence.add_pulse, QubitPulseSequence.angle_to_time, XPulse,
      YPulse, h90]

/-- C4 witness: the x-rotation agreement at piV = 3, θ = 3 on a concrete
qubit sequence. -/
theorem C4_rotation_mapping_witness :
    (3 : ℚ) ≠ 0
  ∧ QubitPulseSequence.add_x_pulse 3 (QubitPulseSequence.init 1 2 7 5 1) 3
      = QubitPulseSequence.add_pulse 3 (QubitPulseSequence.init 1 2 7 5 1) 0 3 :=
  ⟨by norm_num,
   (C4_rotation_mapping 3 (QubitPulseSequence.init 1 2 7 5 1) 3 (by norm_num)).1⟩

/-- C5: compiling an empty pulse list returns normally (no exception) with
zero device operations and the empty-list diagnostic emitted. -/
theorem C5_empty_generate (s : PulseSequence) (trigger_option : ℕ)
    (trigger : List TriggerEvent) (h : s.pulses = []) :
    PulseSequence.generate s trigger_option trigger
      = Except.ok (s,
          (if s.generated then [Diag.recompileWarning] else []) ++ [Diag.emptyWarning], [])
  ∧ Diag.emptyWarning
      ∈ (if s.generated then [Diag.recompileWarning] else []) ++ [Diag.emptyWarning] := by
  constructor
  · unfold PulseSequence.generate
    rw [if_pos (by simp [h])]
  · simp

/-- C5 witness: a freshly constructed sequence has no pulses and compiles to
zero operations with the diagnostic. -/
theorem C5_empty_generate_witness :
    (PulseSequence.init 1 2 1 1).pulses = []
  ∧ PulseSequence.generate (PulseSequence.init 1 2 1 1) 0 [TriggerEvent.BNC_IN_A_RISING]
      = Except.ok (PulseSequence.init 1 2 1 1,
          (if (PulseSequence.init 1 2 1 1).generated then [Diag.recompileWarning] else [])
            ++ [Diag.emptyWarning], []) :=
  ⟨rfl,
   (C5_empty_generate (PulseSequence.init 1 2 1 1) 0 [TriggerEvent.BNC_IN_A_RISING] rfl).1⟩

/-- C6: calling `generate` on an already-generated sequence emits the
recompile warning, does not raise, and re-emits the same full operation
stream a fresh compilation would emit. -/
theorem C6_double_generate (s : PulseSequence) (trigger_option : ℕ)
    (trigger : List TriggerEvent) (ch : ℤ) (hg : s.generated = true)
    (hne : s.pulses ≠ []) (hch : s.channel = some ch) :
    PulseSequence.generate s trigger_option trigger
      = Except.ok ({ s with generated := true }, [Diag.recompileWarning],
          generateOps s.slot ch s.pulses trigger_option trigger)
  ∧ PulseSequence.generate { s with generated := false } trigger_option trigger
      = Except.ok ({ s with generated := true }, [],
          generateOps s.slot ch s.pulses trigger_option trigger) := by
  have hemp : s.pulses.isEmpty = false := by
    cases hp : s.pulses with
    | nil => exact absurd hp hne
    | cons a l => rfl
  constructor
  · unfold PulseSequence.generate
    rw [if_neg (by simp [hemp]), hch]
    simp [hg]
  · unfold PulseSequence.generate
    simp [hemp, hch]

/-- C6 witness: double compile of the concrete generated two-pulse state. -/
theorem C6_double_generate_witness :
    exSeqGen.generated = true ∧ exSeqGen.pulses ≠ [] ∧ exSeqGen.channel = some 1
  ∧ PulseSequence.generate exSeqGen 0 [TriggerEvent.BNC_IN_A_RISING]
      = Except.ok ({ exSeqGen with generated := true }, [Diag.recompileWarning],
          generateOps 0 1 exSeqGen.pulses 0 [TriggerEvent.BNC_IN_A_RISING]) := by
  refine ⟨rfl, by decide, rfl, ?_⟩
  exact (C6_double_generate exSeqGen 0 [TriggerEvent.BNC_IN_A_RISING] 1 rfl (by decide) rfl).1

/-- C7: evaluation at a constructor-reachable not-yet-generated sequence
with one pulse (built by `init` and `add_pulse`): `run` re-invokes
`generate`, which raises AttributeError at the first device call because
`__init__` never created the channel attribute, so no start-playback command
is ever issued — against the claim that `run` first compiles and then issues
exactly one start command.  The already-generated half of the claim does
hold: with the flag true, `run` skips `generate` entirely (it does not even
read the channel attribute) and emits only the start command. -/
theorem C7_failing_eval :
    (PulseSequence.add_pulse (PulseSequence.init 1 2 1 1) 1 none none 0).generated = false
  ∧ (PulseSequence.add_pulse (PulseSequence.init 1 2 1 1) 1 none none 0).pulses ≠ []
  ∧ PulseSequence.run (PulseSequence.add_pulse (PulseSequence.init 1 2 1 1) 1 none none 0)
      = Except.error PyError.attributeError
  ∧ PulseSequence.run { exSeqGen with channel := none }
      = Except.ok ({ exSeqGen with channel := none }, [], [Op.run 0]) :=
  ⟨rfl, by decide, rfl, rfl⟩

/-- C8: `run` on a not-yet-generated sequence with an empty pulse list emits
no stage, wait or commit operation, still issues the start-playback command,
and returns the state unchanged (so the generated flag stays false). -/
theorem C8_run_empty (s : PulseSequence) (h1 : s.pulses = [])
    (h2 : s.generated = false) :
    PulseSequence.run s = Except.ok (s, [Diag.emptyWarning], [Op.run s.slot])
  ∧ (∀ o ∈ [Op.run s.slot], isSingleTone o = false ∧ isWaitTime o = false
      ∧ isWaitTrigger o = false ∧ isPushUpdate o = false)
  ∧ s.generated = false := by
  refine ⟨?_, ?_, h2⟩
  · unfold PulseSequence.run PulseSequence.generate
    rw [if_neg (by simp [h2]), if_pos (by simp [h1])]
    simp [h2]
  · intro o ho
    simp only [List.mem_singleton] at ho
    subst ho
    exact ⟨rfl, rfl, rfl, rfl⟩

/-- C8 witness: `run` on a freshly constructed (empty) sequence. -/
theorem C8_run_empty_witness :
    (PulseSequence.init 1 2 1 1).pulses = []
  ∧ (PulseSequence.init 1 2 1 1).generated = false
  ∧ PulseSequence.run (PulseSequence.init 1 2 1 1)
      = Except.ok (PulseSequence.init 1 2 1 1, [Diag.emptyWarning], [Op.run 2]) := by
  refine ⟨rfl, rfl, ?_⟩
  exact (C8_run_empty (PulseSequence.init 1 2 1 1) rfl rfl).1

/-- C9: whenever `generate` returns normally, the resulting state keeps the
pulse list, default frequency, default amplitude and the slot/channel fields
of the input state unchanged (only the generated flag may differ). -/
theorem C9_generate_frame (s : PulseSequence) (trigger_option : ℕ)
    (trigger : List TriggerEvent) (s' : PulseSequence) (d : List Diag)
    (ops : List Op)
    (h : PulseSequence.generate s trigger_option trigger = Except.ok (s', d, ops)) :
    s'.slot = s.slot ∧ s'.channel = s.channel ∧ s'.default_freq = s.default_freq
  ∧ s'.default_amp = s.default_amp ∧ s'.pulses = s.pulses := by
  unfold PulseSequence.generate at h
  by_cases hemp : s.pulses.isEmpty
  · rw [if_pos hemp] at h
    simp only [Except.ok.injEq, Prod.mk.injEq] at h
    obtain ⟨h1, -, -⟩ := h
    subst h1
    exact ⟨rfl, rfl, rfl, rfl, rfl⟩
  · rw [if_neg hemp] at h
    cases hch : s.channel with
    | none => rw [hch] at h; simp at h
    | some ch =>
        rw [hch] at h
        simp only [Except.ok.injEq, Prod.mk.injEq] at h
        obtain ⟨h1, -, -⟩ := h
        subst h1
        exact ⟨rfl, rfl, rfl, rfl, rfl⟩

/-- C9 witness: the frame condition at the concrete two-pulse compilation. -/
theorem C9_generate_frame_witness :
    ({ exSeq2 with generated := true } : PulseSequence).slot = exSeq2.slot
  ∧ ({ exSeq2 with generated := true } : PulseSequence).channel = exSeq2.channel
  ∧ ({ exSeq2 with generated := true } : PulseSequence).default_freq = exSeq2.default_freq
  ∧ ({ exSeq2 with generated := true } : PulseSequence).default_amp = exSeq2.default_amp
  ∧ ({ exSeq2 with generated := true } : PulseSequence).pulses = exSeq2.pulses :=
  C9_generate_frame exSeq2 0 [TriggerEvent.BNC_IN_A_RISING]
    { exSeq2 with generated := true } []
    (generateOps 0 1 exSeq2.pulses 0 [TriggerEvent.BNC_IN_A_RISING]) rfl

/-- C10: the generated flag is false at construction, `add_pulse` never
changes it, and on every normal return of `generate` or `run` the flag is
the old flag OR-ed with non-emptiness of the pulse list: it becomes true
exactly on a completed non-empty compilation and is never reset to false. -/
theorem C10_generated_flag :
    (∀ slot channel df da, (PulseSequence.init slot channel df da).generated = false)
  ∧ (∀ s t freq amp phase,
      (PulseSequence.add_pulse s t freq amp phase).generated = s.generated)
  ∧ (∀ s trigger_option trigger s' d ops,
      PulseSequence.generate s trigger_option trigger = Except.ok (s', d, ops) →
        s'.generated = (s.generated || !s.pulses.isEmpty))
  ∧ (∀ s s' d ops, PulseSequence.run s = Except.ok (s', d, ops) →
        s'.generated = (s.generated || !s.pulses.isEmpty)) := by
  refine ⟨fun _ _ _ _ => rfl, fun _ _ _ _ _ => rfl,
    fun s topt trig s' d ops h => generate_generated_eq s topt trig s' d ops h, ?_⟩
  intro s s' d ops h
  unfold PulseSequence.run at h
  by_cases hg : s.generated = true
  · rw [if_pos hg] at h
    simp only [Except.ok.injEq, Prod.mk.injEq] at h
    obtain ⟨h1, -, -⟩ := h
    subst h1
    simp [hg]
  · rw [if_neg hg] at h
    cases hgen : PulseSequence.generate s 1 [TriggerEvent.BNC_IN_A_RISING] with
    | error e => rw [hgen] at h; simp at h
    | ok x =>
        obtain ⟨s2, d2, ops2⟩ := x
        rw [hgen] at h
        simp only [Except.ok.injEq, Prod.mk.injEq] at h
        obtain ⟨h1, -, -⟩ := h
        subst h1
        exact generate_generated_eq s 1 [TriggerEvent.BNC_IN_A_RISING] s2 d2 ops2 hgen

/-- C10 witness: a fresh sequence starts not-generated, and the concrete
two-pulse compilation sets the flag per the OR formula. -/
theorem C10_generated_flag_witness :
    (PulseSequence.init 1 2 1 1).generated = false
  ∧ ({ exSeq2 with generated := true } : PulseSequence).generated
      = (exSeq2.generated || !exSeq2.pulses.isEmpty) :=
  ⟨C10_generated_flag.1 1 2 1 1,
   C10_generated_flag.2.2.1 exSeq2 0 [TriggerEvent.BNC_IN_A_RISING]
     { exSeq2 with generated := true } []
     (generateOps 0 1 exSeq2.pulses 0 [TriggerEvent.BNC_IN_A_RISING]) rfl⟩
